import Mathlib

/-
  Verification development for the sentinel-defi-guardian repository.

  Shallow embedding conventions:
  * JavaScript numbers are idealised as exact rationals (ℚ); the special
    values Infinity and NaN that the code produces are represented by
    explicit sum types (HealthValue, JNum) at exactly the places the
    source can produce them.
  * Timestamps (Date.now()) are naturals (milliseconds).
  * JS Map objects become association lists whose lookup takes the most
    recent binding, matching Map.set / Map.get.
  * Byte buffers become a size plus a byte-lookup function; Node Buffer
    reads that throw a RangeError out of bounds are modelled as Except
    failures, and Buffer.slice, which clamps, is modelled by clamping.
-/

namespace Sentinel

/-! ### Risk engine data model (src/risk/riskEngine.ts) -/

/-- Collateral entry of a Position: amount, USD value and unit price. -/
structure CollateralEntry where
  amount : ℚ
  valueUsd : ℚ
  priceUsd : ℚ
deriving DecidableEq, Repr

/-- Debt entry of a Position: USD value. -/
structure DebtEntry where
  valueUsd : ℚ
deriving DecidableEq, Repr

/-- Position consumed by the risk engine (fields used by calculateRisk,
calculateLiquidationPrice and getCurrentPrice). -/
structure Position where
  id : String
  collateral : List CollateralEntry
  debt : List DebtEntry
  liquidationThreshold : Option ℚ
deriving DecidableEq, Repr

/-- Sum of collateral USD values, `position.collateral.reduce((s,c) => s + c.valueUsd, 0)`. -/
def totalCollateral (pos : Position) : ℚ :=
  (pos.collateral.map (fun c => c.valueUsd)).sum

/-- Sum of debt USD values, `position.debt.reduce((s,d) => s + d.valueUsd, 0)`. -/
def totalDebt (pos : Position) : ℚ :=
  (pos.debt.map (fun d => d.valueUsd)).sum

/-- A JS number that is either finite or Infinity, as produced by
`totalDebt > 0 ? totalCollateral / totalDebt : Infinity`. -/
inductive HealthValue where
  | inf : HealthValue
  | val : ℚ → HealthValue
deriving DecidableEq, Repr

/-- Health factor from calculateRisk:
`totalDebt > 0 ? totalCollateral / totalDebt : Infinity`. -/
def healthFactor (pos : Position) : HealthValue :=
  if 0 < totalDebt pos then .val (totalCollateral pos / totalDebt pos) else .inf

/-- One contributing entry of the marginfi health loop after the skips
(inactive balance, missing bank, missing price all `continue`): the
USD asset/liability values and the maintenance weights of its bank. -/
structure WeightedBalance where
  assetValue : ℚ
  liabilityValue : ℚ
  assetWeightMaint : ℚ
  liabilityWeightMaint : ℚ
deriving DecidableEq, Repr

/-- `totalWeightedAssets` accumulated by marginfi calculateHealthFactor. -/
def weightedAssets (l : List WeightedBalance) : ℚ :=
  (l.map (fun b => b.assetValue * b.assetWeightMaint)).sum

/-- `totalWeightedLiabilities` accumulated by marginfi calculateHealthFactor. -/
def weightedLiabilities (l : List WeightedBalance) : ℚ :=
  (l.map (fun b => b.liabilityValue * b.liabilityWeightMaint)).sum

/-- Marginfi health factor:
`totalWeightedLiabilities > 0 ? totalWeightedAssets / totalWeightedLiabilities : Infinity`. -/
def marginfiHealthFactor (l : List WeightedBalance) : HealthValue :=
  if 0 < weightedLiabilities l then .val (weightedAssets l / weightedLiabilities l) else .inf

/-- Risk level enumeration of RiskScore. -/
inductive RiskLevel where
  | low
  | medium
  | high
  | critical
deriving DecidableEq, Repr

/-- Risk-level classification of calculateRisk, taking the configured
warning/critical thresholds, the health factor and the ML risk score:
critical if hf < critT or ml > 0.8; high if hf < warnT or ml > 0.6;
medium if hf < 1.5 or ml > 0.4; otherwise low. -/
def classifyRisk (warnT critT hf ml : ℚ) : RiskLevel :=
  if hf < critT ∨ 4/5 < ml then .critical
  else if hf < warnT ∨ 3/5 < ml then .high
  else if hf < 3/2 ∨ 2/5 < ml then .medium
  else .low

/-- Liquidation price from the first calculateLiquidationPrice
(riskEngine.ts lines 421-438): 0 when either list is empty or either
total is 0, otherwise `(totalDebt * liquidationThreshold) / collateralAmount`
with threshold defaulting to 0.85 and a zero amount coerced to 1 by the
JS `|| 1` fallback. -/
def calculateLiquidationPrice (pos : Position) : ℚ :=
  match pos.collateral, pos.debt with
  | [], _ => 0
  | _, [] => 0
  | c0 :: _, _ :: _ =>
    if totalCollateral pos = 0 ∨ totalDebt pos = 0 then 0
    else
      let thr := pos.liquidationThreshold.getD (17/20)
      let amt := if c0.amount = 0 then 1 else c0.amount
      totalDebt pos * thr / amt

/-- JS arithmetic value for the distance computation: finite, NaN, or a
signed infinity, matching IEEE division by zero. -/
inductive JNum where
  | nan : JNum
  | num : ℚ → JNum
  | posInf : JNum
  | negInf : JNum
deriving DecidableEq, Repr

/-- JS division of two finite numbers: 0/0 is NaN, x/0 is a signed
infinity, otherwise an exact quotient. -/
def jsDiv (a b : ℚ) : JNum :=
  if b = 0 then (if a = 0 then .nan else if 0 < a then .posInf else .negInf)
  else .num (a / b)

/-- JS multiplication of a possibly non-finite value by a finite one. -/
def jsMulNum (x : JNum) (c : ℚ) : JNum :=
  match x with
  | .nan => .nan
  | .num q => .num (q * c)
  | .posInf => if c = 0 then .nan else if 0 < c then .posInf else .negInf
  | .negInf => if c = 0 then .nan else if 0 < c then .negInf else .posInf

/-- `((currentPrice - liquidationPrice) / currentPrice) * 100` from
calculateRisk, with JS division semantics. -/
def distanceToLiq (cp lp : ℚ) : JNum :=
  jsMulNum (jsDiv (cp - lp) cp) 100

/-- getCurrentPrice (riskEngine.ts lines 440-443) returns 0 for a position
with no collateral; for non-empty collateral the price comes from the
cache, the network, or the priceUsd fallback, modelled by the `fetched`
parameter. -/
def getCurrentPrice (pos : Position) (fetched : ℚ) : ℚ :=
  match pos.collateral with
  | [] => 0
  | _ :: _ => fetched

/-! ### GARCH(1,1) recursion (calculateGarchVolatility, riskEngine.ts 1031-1056) -/

/-- Default GARCH alpha installed when no model exists for the asset. -/
def garchAlpha : ℚ := 1/10

/-- Default GARCH beta. -/
def garchBeta : ℚ := 17/20

/-- Default GARCH omega. -/
def garchOmega : ℚ := 1/100000

/-- Initial stored conditional variance (`longTermVariance: 0.001`). -/
def garchInitVariance : ℚ := 1/1000

/-- One step of the loop
`conditionalVariance = omega + alpha * prevReturn * prevReturn + beta * conditionalVariance`. -/
def garchUpdate (r v : ℚ) : ℚ :=
  garchOmega + garchAlpha * (r * r) + garchBeta * v

/-- Conditional variance after n update steps fed the constant zero-return
series, starting from the default stored state. Each call to
calculateGarchVolatility folds garchUpdate over the returns and stores the
result back, so repeatedly feeding zero returns realises this sequence. -/
def garchVarZero : ℕ → ℚ
  | 0 => garchInitVariance
  | n + 1 => garchUpdate 0 (garchVarZero n)

/-- Convergence of a rational sequence. -/
def SeqTendsTo (f : ℕ → ℚ) (L : ℚ) : Prop :=
  ∀ ε : ℚ, 0 < ε → ∃ N : ℕ, ∀ n : ℕ, N ≤ n → |f n - L| < ε

/-- Long-run variance ω / (1 − α − β) named by the spec as the limit. -/
def garchLongRunVariance : ℚ := garchOmega / (1 - garchAlpha - garchBeta)

/-- Fixed point ω / (1 − β) of the zero-return recursion. -/
def garchZeroFixedPoint : ℚ := garchOmega / (1 - garchBeta)

/-! ### Liquidation prediction (predictLiquidation, riskEngine.ts 489-699) -/

/-- Every input of the extended predictLiquidation other than the health
factor, held fixed: the averaged neural/ensemble base, the configured ML
weights, and the feature/indicator state of the risk snapshot. -/
structure PredictTerms where
  base : ℚ
  wHealth : ℚ
  wVol : ℚ
  wTrend : ℚ
  wVolume : ℚ
  wCorr : ℚ
  wTech : ℚ
  garchVol : ℚ
  volOfVol : ℚ
  dist : ℚ
  priceVelocity : ℚ
  momentumScore : ℚ
  rsi : ℚ
  macdHist : ℚ
  stochK : ℚ
  currentPrice : ℚ
  bollLower : ℚ
  sma5 : ℚ
  sma20 : ℚ
  sma50 : ℚ
  ema5 : ℚ
  ema20 : ℚ
  volumeProfile : ℚ
  liquidityScore : ℚ
  correlationScore : ℚ
  marketSentiment : ℚ

/-- Health-factor contribution (riskEngine.ts 511-529): three severity
bands below 1.05 / 1.1 / 1.3 with slopes 12 / 10 / 4 times the
health-factor weight. -/
def healthRisk (w hf : ℚ) : ℚ :=
  if hf < 21/20 then (21/20 - hf) * 12 * w
  else if hf < 11/10 then (11/10 - hf) * 10 * w
  else if hf < 13/10 then (13/10 - hf) * 4 * w
  else 0

/-- Volatility-clustering contribution (riskEngine.ts 531-545). -/
def volClusterRisk (w g vv : ℚ) : ℚ :=
  if 1/10 < g ∨ 1/20 < vv then max ((g - 2/25) * 6) ((vv - 3/100) * 8) * w
  else if 1/20 < g ∨ 3/100 < vv then max ((g - 1/20) * 4) ((vv - 1/50) * 5) * w
  else 0

/-- Distance-to-liquidation contribution (riskEngine.ts 547-567). -/
def distBandRisk (d : ℚ) : ℚ :=
  if d < 3 then 3/5
  else if d < 5 then 2/5
  else if d < 10 then 1/4
  else if d < 20 then 1/10
  else 0

/-- Momentum/velocity contribution (riskEngine.ts 569-589). -/
def trendRisk (w pv ms : ℚ) : ℚ :=
  if pv < -(3/100) ∨ ms < -(1/2) then max (|pv| * 6) (|ms| * (2/5)) * w
  else if pv < -(1/50) ∨ ms < -(3/10) then max (|pv| * 4) (|ms| * (3/10)) * w
  else if pv < -(1/100) ∨ ms < -(1/5) then max (|pv| * 3) (|ms| * (1/5)) * w
  else 0

/-- Oversold technical-indicator contribution (riskEngine.ts 591-607). -/
def techRisk (w rsi hist k : ℚ) : ℚ :=
  if rsi < 20 ∧ hist < -(1/2) ∧ k < 20 then 3/10 * w
  else if rsi < 30 ∨ hist < -(3/10) ∨ k < 30 then 3/20 * w
  else 0

/-- Bollinger lower-band contribution (riskEngine.ts 609-616). -/
def bollRisk (cp lower : ℚ) : ℚ :=
  if cp < lower * (49/50) then 1/10 else 0

/-- Bearish moving-average alignment contribution (riskEngine.ts 618-628). -/
def maAlignRisk (w s5 s20 s50 e5 e20 : ℚ) : ℚ :=
  if s5 < s20 ∧ s20 < s50 ∧ e5 < e20 then 2/25 * w else 0

/-- Volume-spike contribution (riskEngine.ts 630-644). -/
def volumeRisk (w vp ls : ℚ) : ℚ :=
  if 3 < vp ∧ ls < 3/10 then (vp - 2) * (3/20) * w
  else if 5/2 < vp then (vp - 2) * (1/10) * w
  else 0

/-- Correlation-stress contribution (riskEngine.ts 646-660). -/
def corrRisk (w cs sent : ℚ) : ℚ :=
  if 17/20 < cs ∧ sent < -(1/2) then (cs - 7/10) * (4/5) * w
  else if 4/5 < cs then (cs - 4/5) * (1/2) * w
  else 0

/-- Sum of all non-health contributions of predictLiquidation, fixed once
the snapshot and features are fixed. -/
def otherRisk (t : PredictTerms) : ℚ :=
  volClusterRisk t.wVol t.garchVol t.volOfVol
  + distBandRisk t.dist
  + trendRisk t.wTrend t.priceVelocity t.momentumScore
  + techRisk t.wTech t.rsi t.macdHist t.stochK
  + bollRisk t.currentPrice t.bollLower
  + maAlignRisk t.wTrend t.sma5 t.sma20 t.sma50 t.ema5 t.ema20
  + volumeRisk t.wVolume t.volumeProfile t.liquidityScore
  + corrRisk t.wCorr t.correlationScore t.marketSentiment

/-- Overall liquidation probability of predictLiquidation:
base plus all additive contributions, clamped by
`probability = Math.min(probability, 0.98)` (riskEngine.ts 662). -/
def predictProbability (t : PredictTerms) (hf : ℚ) : ℚ :=
  min (t.base + healthRisk t.wHealth hf + otherRisk t) (49/50)

/-- PredictTerms with the default configured weights, zero base and a
neutral feature state: no volatility, far from liquidation, flat trend,
neutral indicators, rising moving averages, normal volume, no
correlation stress. -/
def neutralTerms : PredictTerms where
  base := 0
  wHealth := 1/4
  wVol := 1/5
  wTrend := 3/20
  wVolume := 1/10
  wCorr := 1/10
  wTech := 1/10
  garchVol := 0
  volOfVol := 0
  dist := 100
  priceVelocity := 0
  momentumScore := 0
  rsi := 50
  macdHist := 0
  stochK := 50
  currentPrice := 100
  bollLower := 0
  sma5 := 3
  sma20 := 2
  sma50 := 1
  ema5 := 3
  ema20 := 2
  volumeProfile := 1
  liquidityScore := 1
  correlationScore := 0
  marketSentiment := 0

/-- Two health factors lie in the same severity band of healthRisk:
both below 1.05, both in [1.05, 1.1), both in [1.1, 1.3), or both at
least 1.3. -/
def SameBand (a b : ℚ) : Prop :=
  (a < 21/20 ∧ b < 21/20)
  ∨ (21/20 ≤ a ∧ a < 11/10 ∧ 21/20 ≤ b ∧ b < 11/10)
  ∨ (11/10 ≤ a ∧ a < 13/10 ∧ 11/10 ≤ b ∧ b < 13/10)
  ∨ (13/10 ≤ a ∧ 13/10 ≤ b)

/-! ### Alert system (src/alerts/alertSystem.ts) -/

/-- Alert type enumeration. -/
inductive AlertType where
  | warning
  | critical
  | prediction
  | info
deriving DecidableEq, Repr

/-- One recorded alert: type, target position and creation timestamp
(the fields the dispatch/cooldown logic depends on). -/
structure AlertRec where
  atype : AlertType
  positionId : String
  timestamp : ℕ
deriving DecidableEq, Repr

/-- Risk-snapshot fields read by the shouldSend predicates. The source
compares JS numbers; an Infinity health factor or collateral percentage
compares greater than every threshold, so any sufficiently large rational
is an exact stand-in. -/
structure RiskSnapshot where
  healthFactor : ℚ
  collRat : ℚ
  distToLiq : ℚ
deriving DecidableEq, Repr

/-- Configured AlertThresholds fields used by the decision policy. -/
structure Thresholds where
  hfWarning : ℚ
  hfCritical : ℚ
  liqProbability : ℚ
  distPct : ℚ
  collWarning : ℚ
  collCritical : ℚ
deriving DecidableEq, Repr

/-- Default thresholds installed by the AlertSystem constructor. -/
def defaultThresholds : Thresholds where
  hfWarning := 13/10
  hfCritical := 11/10
  liqProbability := 7/10
  distPct := 10
  collWarning := 3/2
  collCritical := 6/5

/-- shouldSendWarning: health factor, collateral ratio or
distance-to-liquidation at or below its warning threshold. -/
def shouldSendWarning (th : Thresholds) (rs : RiskSnapshot) : Bool :=
  decide (rs.healthFactor ≤ th.hfWarning)
  || decide (rs.collRat ≤ th.collWarning)
  || decide (rs.distToLiq ≤ th.distPct)

/-- shouldSendCritical: critical thresholds, with the distance bound
hard-coded to 5. -/
def shouldSendCritical (th : Thresholds) (rs : RiskSnapshot) : Bool :=
  decide (rs.healthFactor ≤ th.hfCritical)
  || decide (rs.collRat ≤ th.collCritical)
  || decide (rs.distToLiq ≤ 5)

/-- shouldSendPrediction: probability at or above the configured bound. -/
def shouldSendPrediction (th : Thresholds) (p : ℚ) : Bool :=
  decide (th.liqProbability ≤ p)

/-- Mutable state of the AlertSystem relevant to cooldowns and history:
the cooldownMap (most recent binding wins, like Map.set/get) and the
bounded alertHistory. -/
structure AlertState where
  cooldown : List (String × ℕ)
  history : List AlertRec
deriving DecidableEq, Repr

/-- Map.get on the cooldown map. -/
def lookupCooldown (m : List (String × ℕ)) (k : String) : Option ℕ :=
  (m.find? (fun p => p.1 == k)).map (fun p => p.2)

/-- isOnCooldown: false when no entry exists; the JS truthiness test
`if (!lastAlert)` also treats a stored timestamp 0 as absent; otherwise
on cooldown iff `now - lastAlert < cooldown`. -/
def isOnCooldown (m : List (String × ℕ)) (k : String) (now cd : ℕ) : Bool :=
  match lookupCooldown m k with
  | none => false
  | some last => if last = 0 then false else decide (now - last < cd)

/-- dispatchAlert appends to alertHistory and evicts the oldest entry
past the 1000 cap. -/
def pushHistory (h : List AlertRec) (a : AlertRec) : List AlertRec :=
  let h' := h ++ [a]
  if 1000 < h'.length then h'.tail else h'

/-- sendWarningAlert of the first alertSystem.ts document (lines 268-295):
only the 60 s cooldown gates the dispatch; no threshold is consulted.
Returns the new state and whether dispatchAlert ran. -/
def sendWarningV1 (now : ℕ) (pid : String) (st : AlertState) :
    AlertState × Bool :=
  let key := "warning-" ++ pid
  if isOnCooldown st.cooldown key now 60000 then (st, false)
  else ({ cooldown := (key, now) :: st.cooldown,
          history := pushHistory st.history ⟨.warning, pid, now⟩ }, true)

/-- sendCriticalAlert of the first document (lines 297-325): only the
30 s cooldown gates the dispatch. -/
def sendCriticalV1 (now : ℕ) (pid : String) (st : AlertState) :
    AlertState × Bool :=
  let key := "critical-" ++ pid
  if isOnCooldown st.cooldown key now 30000 then (st, false)
  else ({ cooldown := (key, now) :: st.cooldown,
          history := pushHistory st.history ⟨.critical, pid, now⟩ }, true)

/-- sendWarningAlert of the second document (lines 891-919): returns
without dispatching unless shouldSendWarning holds, then applies the
60 s cooldown, then dispatches and records the cooldown. -/
def sendWarningV2 (th : Thresholds) (now : ℕ) (pid : String)
    (rs : RiskSnapshot) (st : AlertState) : AlertState × Bool :=
  if !shouldSendWarning th rs then (st, false)
  else
    let key := "warning-" ++ pid
    if isOnCooldown st.cooldown key now 60000 then (st, false)
    else ({ cooldown := (key, now) :: st.cooldown,
            history := pushHistory st.history ⟨.warning, pid, now⟩ }, true)

/-- sendCriticalAlert of the second document (lines 921-951): threshold
check, then the 30 s cooldown. -/
def sendCriticalV2 (th : Thresholds) (now : ℕ) (pid : String)
    (rs : RiskSnapshot) (st : AlertState) : AlertState × Bool :=
  if !shouldSendCritical th rs then (st, false)
  else
    let key := "critical-" ++ pid
    if isOnCooldown st.cooldown key now 30000 then (st, false)
    else ({ cooldown := (key, now) :: st.cooldown,
            history := pushHistory st.history ⟨.critical, pid, now⟩ }, true)

/-- sendPredictionAlert of the second document (lines 953-981):
probability threshold check, then the 60 s cooldown. -/
def sendPredictionV2 (th : Thresholds) (now : ℕ) (pid : String)
    (p : ℚ) (st : AlertState) : AlertState × Bool :=
  if !shouldSendPrediction th p then (st, false)
  else
    let key := "prediction-" ++ pid
    if isOnCooldown st.cooldown key now 60000 then (st, false)
    else ({ cooldown := (key, now) :: st.cooldown,
            history := pushHistory st.history ⟨.prediction, pid, now⟩ }, true)

/-! ### Rate limiting (isRateLimited, alertSystem.ts 248-266) -/

/-- One isRateLimited check for a sink whose stored timestamps are `ts`,
at time `now` with the configured per-minute limit: timestamps older than
the 60 s window are discarded; if the surviving count reaches the limit
the call reports limited WITHOUT storing anything; otherwise `now` is
appended and stored. -/
def rlStep (limit : ℕ) (ts : List ℕ) (now : ℕ) : List ℕ × Bool :=
  let recent := ts.filter (fun t => decide (now - t < 60000))
  if limit ≤ recent.length then (ts, true)
  else (recent ++ [now], false)

/-- Successive isRateLimited checks for one sink at the given times,
threading the stored timestamp list; returns the final list and the
limited-flag of each check in order. -/
def rlRun (limit : ℕ) (acc : List ℕ) : List ℕ → List ℕ × List Bool
  | [] => (acc, [])
  | t :: rest =>
    let s := rlStep limit acc t
    let r := rlRun limit s.1 rest
    (r.1, s.2 :: r.2)

/-- Map.get on the rateLimitMap. -/
def lookupRate (m : List (String × List ℕ)) (k : String) : Option (List ℕ) :=
  (m.find? (fun p => p.1 == k)).map (fun p => p.2)

/-- isRateLimited at the map level: reads the sink's timestamps
(`|| []` when absent), applies rlStep, and stores the updated list only
when the call was not limited, exactly as the source only calls
rateLimitMap.set on the non-limited path. -/
def rlMapStep (limit : ℕ) (m : List (String × List ℕ)) (name : String)
    (now : ℕ) : List (String × List ℕ) × Bool :=
  let ts := (lookupRate m name).getD []
  let s := rlStep limit ts now
  if s.2 then (m, true) else ((name, s.1) :: m, false)

/-! ### Per-sink statistics (updateWebhookStats, alertSystem.ts 697-705) -/

/-- WebhookStats record. -/
structure WStats where
  totalSent : ℕ
  successCount : ℕ
  failureCount : ℕ
  rateLimitHits : ℕ
  lastSent : Option ℕ
  lastSuccess : Option ℕ
  lastFailure : Option ℕ
  avgResponse : ℚ
deriving DecidableEq, Repr

/-- Stats as initialised for a named sink: all counters 0. -/
def initStats : WStats :=
  ⟨0, 0, 0, 0, none, none, none, 0⟩

/-- The four updateWebhookStats calls reachable from dispatchAlert:
a rate-limit hit, the pre-send bump, a delivery success with its
response time, and a delivery failure. -/
inductive StatEvent where
  | rateLimited
  | preSend
  | sendSuccess (now rt : ℕ)
  | sendFailure (now : ℕ)
deriving DecidableEq, Repr

/-- updateWebhookStats applied to one event. Object.assign OVERWRITES
each supplied field with the literal value 1 (or the timestamp), then the
averageResponseTime branch recomputes the running mean from the
just-assigned fields. -/
def applyEvent (s : WStats) : StatEvent → WStats
  | .rateLimited => { s with rateLimitHits := 1 }
  | .preSend => { s with totalSent := 1 }
  | .sendSuccess now rt =>
    let s1 := { s with successCount := 1, lastSuccess := some now,
                       lastSent := some now, avgResponse := (rt : ℚ) }
    if rt ≠ 0 ∧ 0 < s1.totalSent then
      { s1 with avgResponse :=
          (s1.avgResponse * ((s1.totalSent : ℚ) - 1) + (rt : ℚ)) / (s1.totalSent : ℚ) }
    else s1
  | .sendFailure now =>
    { s with failureCount := 1, lastFailure := some now, lastSent := some now }

/-! ### Marginfi account decoder (parseAccount, protocols/marginfi.ts 136-202) -/

/-- A byte buffer: its length and its byte at each index. -/
structure ByteBuf where
  size : ℕ
  byteAt : ℕ → ℕ

/-- Buffer.slice(start, stop): clamps to the buffer, never throws. -/
def sliceBytes (b : ByteBuf) (start stop : ℕ) : List ℕ :=
  (List.range (min stop b.size - start)).map (fun i => b.byteAt (start + i))

/-- The only failure the decoder can produce: an untyped JS runtime
exception (Buffer RangeError or PublicKey constructor error). The source
defines NO DecodeError type and no TooShort / BadDiscriminator /
UnsupportedVersion variants anywhere. -/
inductive JsErr where
  | jsError
deriving DecidableEq, Repr

/-- new PublicKey(data.slice(start, stop)): the slice clamps, and the
PublicKey constructor throws unless it receives exactly 32 bytes. -/
def readPubkey (b : ByteBuf) (start stop : ℕ) : Except JsErr (List ℕ) :=
  let s := sliceBytes b start stop
  if s.length = 32 then .ok s else .error .jsError

/-- Buffer.readUInt8: throws a RangeError past the end. -/
def readU8 (b : ByteBuf) (off : ℕ) : Except JsErr ℕ :=
  if off + 1 ≤ b.size then .ok (b.byteAt off % 256) else .error .jsError

/-- Buffer.readUInt32LE: throws a RangeError past the end. -/
def readU32 (b : ByteBuf) (off : ℕ) : Except JsErr ℕ :=
  if off + 4 ≤ b.size then
    .ok (b.byteAt off % 256
      + b.byteAt (off + 1) % 256 * 256
      + b.byteAt (off + 2) % 256 * 65536
      + b.byteAt (off + 3) % 256 * 16777216)
  else .error .jsError

/-- readBigUInt64LE helper of MarginfiMonitor: two readUInt32LE calls,
`low + (high << 32)`. -/
def readU64 (b : ByteBuf) (off : ℕ) : Except JsErr ℕ := do
  let low ← readU32 b off
  let high ← readU32 b (off + 4)
  pure (low + high * 4294967296)

/-- One decoded marginfi balance slot. -/
structure MfBalance where
  active : Bool
  bankPk : List ℕ
  assetShares : ℕ
  liabilityShares : ℕ
  emissionsOutstanding : ℕ
  lastUpdate : ℕ
deriving DecidableEq, Repr

/-- The 16-slot balance loop of parseAccount, 73 bytes per slot starting
at offset 72; a slot is kept only when active with nonzero shares. The
8 padding bytes are sliced (clamping, cannot fail) and not modelled. -/
def parseBalances (b : ByteBuf) : ℕ → ℕ → Except JsErr (List MfBalance)
  | 0, _ => .ok []
  | n + 1, off => do
    let a ← readU8 b off
    let bankPk ← readPubkey b (off + 1) (off + 33)
    let assetShares ← readU64 b (off + 33)
    let liabilityShares ← readU64 b (off + 41)
    let emissions ← readU64 b (off + 49)
    let lastUpdate ← readU64 b (off + 57)
    let rest ← parseBalances b n (off + 73)
    if a = 1 ∧ (0 < assetShares ∨ 0 < liabilityShares) then
      .ok (⟨true, bankPk, assetShares, liabilityShares, emissions, lastUpdate⟩ :: rest)
    else
      .ok rest

/-- Decoded marginfi account (the pure decoding fields; the health
fields filled in afterwards by calculateHealthFactor are separate). -/
structure MfAccount where
  discriminator : List ℕ
  owner : List ℕ
  group : List ℕ
  balances : List MfBalance
  accountType : ℕ
deriving DecidableEq, Repr

/-- parseAccount: slices the 8 discriminator bytes WITHOUT ever comparing
them to anything, reads owner and group keys, the 16 balance slots, and
the account type at offset 72 + 16*73 = 1240. Any out-of-bounds fixed
read surfaces as the untyped jsError. -/
def parseAccount (b : ByteBuf) : Except JsErr MfAccount := do
  let disc := sliceBytes b 0 8
  let owner ← readPubkey b 8 40
  let group ← readPubkey b 40 72
  let balances ← parseBalances b 16 72
  let accountType ← readU8 b 1240
  pure ⟨disc, owner, group, balances, accountType⟩

/-- A full-sized (2272-byte) marginfi account buffer whose every byte is
zero — in particular its discriminator is NOT the marginfi account
discriminator. -/
def zeroBuf : ByteBuf := ⟨2272, fun _ => 0⟩

/-- A 10-byte truncated buffer. -/
def shortBuf : ByteBuf := ⟨10, fun _ => 0⟩

/-! ### Concrete instances used by witnesses and counterexamples -/

/-- A position with no collateral and no debt. -/
def emptyPos : Position := ⟨"empty", [], [], none⟩

/-- The C8 scenario position: one collateral entry worth $150 (0.6 units
at $250), one debt entry of $100, liquidation threshold 0.8. -/
def pos8 : Position := ⟨"demo", [⟨3/5, 150, 250⟩], [⟨100⟩], some (4/5)⟩

/-- A thoroughly healthy risk snapshot: health factor 5, collateral
percentage 500, distance 50% — none of the default warning or critical
thresholds is crossed. -/
def rsSafe : RiskSnapshot := ⟨5, 500, 50⟩

/-- All four cumulative counters of a stats record are at most 1. -/
def CountersBounded (s : WStats) : Prop :=
  s.totalSent ≤ 1 ∧ s.successCount ≤ 1 ∧ s.failureCount ≤ 1 ∧ s.rateLimitHits ≤ 1

/-! ## Theorems -/

/-- Claim C3: for every position, the health factor computed by
calculateRisk is +infinity iff the total debt is exactly zero, and
otherwise equals total collateral divided by total debt (exactly, hence
within the 1e-9 tolerance); likewise the marginfi risk-weighted health
factor is +infinity iff the risk-weighted debt is zero and otherwise is
the weighted quotient. Hypotheses: debt values (and weighted liability
terms) are non-negative, the data-model invariant. -/
theorem health_factor_infinite_iff_zero_debt
    (pos : Position) (l : List WeightedBalance)
    (hdebt : ∀ e ∈ pos.debt, 0 ≤ e.valueUsd)
    (hliab : ∀ b ∈ l, 0 ≤ b.liabilityValue * b.liabilityWeightMaint) :
    (healthFactor pos = .inf ↔ totalDebt pos = 0)
    ∧ (totalDebt pos ≠ 0 →
        healthFactor pos = .val (totalCollateral pos / totalDebt pos))
    ∧ (marginfiHealthFactor l = .inf ↔ weightedLiabilities l = 0)
    ∧ (weightedLiabilities l ≠ 0 →
        marginfiHealthFactor l = .val (weightedAssets l / weightedLiabilities l)) := by
  have hd0 : 0 ≤ totalDebt pos := by
    apply List.sum_nonneg
    intro x hx
    simp only [List.mem_map] at hx
    obtain ⟨e, he, rfl⟩ := hx
    exact hdebt e he
  have hw0 : 0 ≤ weightedLiabilities l := by
    apply List.sum_nonneg
    intro x hx
    simp only [List.mem_map] at hx
    obtain ⟨b, hb, rfl⟩ := hx
    exact hliab b hb
  refine ⟨?_, ?_, ?_, ?_⟩
  · unfold healthFactor
    by_cases h : 0 < totalDebt pos
    · simp only [if_pos h]
      constructor
      · intro hc; exact absurd hc (by simp)
      · intro hc; exact absurd hc (by linarith)
    · have h0 : totalDebt pos = 0 := le_antisymm (not_lt.mp h) hd0
      simp [if_neg h, h0]
  · intro hne
    have h : 0 < totalDebt pos := lt_of_le_of_ne hd0 (Ne.symm hne)
    unfold healthFactor
    simp [if_pos h]
  · unfold marginfiHealthFactor
    by_cases h : 0 < weightedLiabilities l
    · simp only [if_pos h]
      constructor
      · intro hc; exact absurd hc (by simp)
      · intro hc; exact absurd hc (by linarith)
    · have h0 : weightedLiabilities l = 0 := le_antisymm (not_lt.mp h) hw0
      simp [if_neg h, h0]
  · intro hne
    have h : 0 < weightedLiabilities l := lt_of_le_of_ne hw0 (Ne.symm hne)
    unfold marginfiHealthFactor
    simp [if_pos h]

/-- Witness for C3: the empty position and the empty balance list satisfy
the non-negativity hypotheses, and there the health factor is infinite
with zero debt. -/
theorem health_factor_infinite_iff_zero_debt_witness :
    (healthFactor emptyPos = .inf ↔ totalDebt emptyPos = 0)
    ∧ (totalDebt emptyPos ≠ 0 →
        healthFactor emptyPos = .val (totalCollateral emptyPos / totalDebt emptyPos))
    ∧ (marginfiHealthFactor [] = .inf ↔ weightedLiabilities [] = 0)
    ∧ (weightedLiabilities ([] : List WeightedBalance) ≠ 0 →
        marginfiHealthFactor [] = .val (weightedAssets [] / weightedLiabilities [])) :=
  health_factor_infinite_iff_zero_debt emptyPos []
    (by intro e he; simp [emptyPos] at he) (by intro b hb; simp at hb)

/-- Claim C8: the scenario position with collateral $150 (0.6 units at
$250), debt $100 and liquidation threshold 0.8 has health factor 1.5,
is classified low with the 1.3/1.1 configured bands (for any ML score
not above the 0.4 medium gate), its liquidation price is
100 * 0.8 / 0.6 = 400/3 = $133.33, and the distance-to-liquidation is
((250 - 400/3) / 250) * 100 = 140/3 percent. -/
theorem scenario_collateral150_debt100
    (ml : ℚ) (hml : ml ≤ 2/5) :
    healthFactor pos8 = .val (3/2)
    ∧ classifyRisk (13/10) (11/10) (3/2) ml = .low
    ∧ calculateLiquidationPrice pos8 = 400/3
    ∧ distanceToLiq 250 (400/3) = .num (140/3) := by
  refine ⟨?_, ?_, ?_, ?_⟩
  · simp only [healthFactor, totalDebt, totalCollateral, pos8]
    norm_num
  · unfold classifyRisk
    rw [if_neg, if_neg, if_neg]
    · push_neg
      exact ⟨by norm_num, by linarith⟩
    · push_neg
      exact ⟨by norm_num, by linarith⟩
    · push_neg
      exact ⟨by norm_num, by linarith⟩
  · simp only [calculateLiquidationPrice, totalDebt, totalCollateral, pos8]
    norm_num
  · simp only [distanceToLiq, jsDiv, jsMulNum]
    norm_num

/-- Witness for C8 at ML score 0. -/
theorem scenario_collateral150_debt100_witness :
    healthFactor pos8 = .val (3/2)
    ∧ classifyRisk (13/10) (11/10) (3/2) 0 = .low
    ∧ calculateLiquidationPrice pos8 = 400/3
    ∧ distanceToLiq 250 (400/3) = .num (140/3) :=
  scenario_collateral150_debt100 0 (by norm_num)

/-- Claim C10: a position with no collateral gets currentPrice 0 and
liquidationPrice 0, and the unguarded
((currentPrice - liquidationPrice) / currentPrice) * 100 is the JS
computation (0 - 0) / 0 * 100 = NaN, not a percentage. -/
theorem empty_collateral_distance_nan
    (pos : Position) (fetched : ℚ) (h : pos.collateral = []) :
    getCurrentPrice pos fetched = 0
    ∧ calculateLiquidationPrice pos = 0
    ∧ distanceToLiq (getCurrentPrice pos fetched) (calculateLiquidationPrice pos)
        = .nan := by
  have h1 : getCurrentPrice pos fetched = 0 := by
    unfold getCurrentPrice
    rw [h]
  have h2 : calculateLiquidationPrice pos = 0 := by
    unfold calculateLiquidationPrice
    rw [h]
    cases hd : pos.debt <;> rfl
  refine ⟨h1, h2, ?_⟩
  rw [h1, h2]
  simp [distanceToLiq, jsDiv, jsMulNum]

/-- Witness for C10 at the concrete empty position. -/
theorem empty_collateral_distance_nan_witness :
    getCurrentPrice emptyPos 0 = 0
    ∧ calculateLiquidationPrice emptyPos = 0
    ∧ distanceToLiq (getCurrentPrice emptyPos 0) (calculateLiquidationPrice emptyPos)
        = .nan :=
  empty_collateral_distance_nan emptyPos 0 rfl

/-- Claim C4 (divergence witness): the marginfi decoder accepts a
2272-byte buffer whose discriminator is all zeros — decoding SUCCEEDS
with no BadDiscriminator failure, because parseAccount never validates
the discriminator — and on a 10-byte truncated buffer it fails with the
untyped JS runtime error, not with a TooShort DecodeError: no DecodeError
type exists in the source. -/
theorem marginfi_parse_no_decode_error :
    parseAccount zeroBuf
      = .ok ⟨List.replicate 8 0, List.replicate 32 0, List.replicate 32 0, [], 0⟩
    ∧ parseAccount shortBuf = .error .jsError := by
  constructor
  · rfl
  · rfl

/-- updateWebhookStats overwrites each counter with the supplied value,
so one event keeps every counter at most 1. -/
theorem applyEvent_preserves_bounded (s : WStats) (e : StatEvent)
    (h : CountersBounded s) : CountersBounded (applyEvent s e) := by
  obtain ⟨h1, h2, h3, h4⟩ := h
  cases e with
  | rateLimited => exact ⟨h1, h2, h3, le_refl 1⟩
  | preSend => exact ⟨le_refl 1, h2, h3, h4⟩
  | sendSuccess now rt =>
    simp only [applyEvent, CountersBounded]
    split <;> exact ⟨h1, le_refl 1, h3, h4⟩
  | sendFailure now => exact ⟨h1, h2, le_refl 1, h4⟩

/-- Folding any event sequence preserves the bound. -/
theorem foldl_applyEvent_bounded (l : List StatEvent) :
    ∀ s : WStats, CountersBounded s → CountersBounded (l.foldl applyEvent s) := by
  induction l with
  | nil => intro s hs; exact hs
  | cons e rest ih =>
    intro s hs
    exact ih (applyEvent s e) (applyEvent_preserves_bounded s e hs)

/-- Claim C9: after any sequence of stats updates issued by
dispatchAlert (rate-limit hits, pre-send bumps, success and failure
records), every counter field of the per-sink statistics — totalSent,
successCount, failureCount, rateLimitHits — is at most 1, because
updateWebhookStats overwrites counters with the supplied literal 1
instead of adding to them. -/
theorem webhook_counters_at_most_one (l : List StatEvent) :
    CountersBounded (l.foldl applyEvent initStats) :=
  foldl_applyEvent_bounded l initStats
    ⟨Nat.zero_le 1, Nat.zero_le 1, Nat.zero_le 1, Nat.zero_le 1⟩

/-- Claim C6: two critical alerts for the same position issued less than
the 30-second critical cooldown apart produce exactly one dispatch: the
first call dispatches and appends one alert to the history, the second
call returns with the state unchanged, dispatching and recording
nothing. -/
theorem critical_cooldown_single_dispatch
    (t0 t1 : ℕ) (pid : String) (st : AlertState)
    (h0 : isOnCooldown st.cooldown ("critical-" ++ pid) t0 30000 = false)
    (ht : 1 ≤ t0) (hle : t0 ≤ t1) (hwin : t1 - t0 < 30000)
    (hcap : st.history.length < 1000) :
    (sendCriticalV1 t0 pid st).2 = true
    ∧ (sendCriticalV1 t1 pid (sendCriticalV1 t0 pid st).1).2 = false
    ∧ (sendCriticalV1 t1 pid (sendCriticalV1 t0 pid st).1).1
        = (sendCriticalV1 t0 pid st).1
    ∧ ((sendCriticalV1 t0 pid st).1).history.length = st.history.length + 1 := by
  have hc1 : (sendCriticalV1 t0 pid st).1.cooldown
      = ("critical-" ++ pid, t0) :: st.cooldown := by
    simp [sendCriticalV1, h0]
  have hh1 : (sendCriticalV1 t0 pid st).1.history
      = pushHistory st.history ⟨.critical, pid, t0⟩ := by
    simp [sendCriticalV1, h0]
  have hfind : lookupCooldown (("critical-" ++ pid, t0) :: st.cooldown)
      ("critical-" ++ pid) = some t0 := by
    unfold lookupCooldown
    rw [List.find?_cons_of_pos _ (by simp)]
    rfl
  have hcd : isOnCooldown (("critical-" ++ pid, t0) :: st.cooldown)
      ("critical-" ++ pid) t1 30000 = true := by
    unfold isOnCooldown
    rw [hfind]
    simp only
    rw [if_neg (by omega)]
    exact decide_eq_true hwin
  have hlen : (pushHistory st.history ⟨.critical, pid, t0⟩).length
      = st.history.length + 1 := by
    unfold pushHistory
    rw [if_neg (by simp only [List.length_append, List.length_cons,
      List.length_nil]; omega)]
    simp
  refine ⟨by simp [sendCriticalV1, h0], ?_, ?_, by rw [hh1]; exact hlen⟩
  · simp [sendCriticalV1, h0, hcd]
  · simp [sendCriticalV1, h0, hcd]

/-- Witness for C6: first critical alert at t=1000, second at t=2000. -/
theorem critical_cooldown_single_dispatch_witness :
    (sendCriticalV1 1000 "p" ⟨[], []⟩).2 = true
    ∧ (sendCriticalV1 2000 "p" (sendCriticalV1 1000 "p" ⟨[], []⟩).1).2 = false
    ∧ (sendCriticalV1 2000 "p" (sendCriticalV1 1000 "p" ⟨[], []⟩).1).1
        = (sendCriticalV1 1000 "p" ⟨[], []⟩).1
    ∧ ((sendCriticalV1 1000 "p" ⟨[], []⟩).1).history.length
        = (⟨[], []⟩ : AlertState).history.length + 1 :=
  critical_cooldown_single_dispatch 1000 2000 "p" ⟨[], []⟩ rfl
    (by norm_num) (by norm_num) (by norm_num) (by simp)

/-- Claim C5 counterexample: the sendWarningAlert of the first
alertSystem.ts document dispatches (appends to the alert history) for a
risk snapshot that crosses NO configured threshold — only the cooldown is
consulted there — so the claim that an alert is dispatched only when a
threshold is crossed AND the cooldown has elapsed fails on that version. -/
theorem warning_dispatch_without_threshold :
    shouldSendWarning defaultThresholds rsSafe = false
    ∧ shouldSendCritical defaultThresholds rsSafe = false
    ∧ (sendWarningV1 7 "p" ⟨[], []⟩).2 = true
    ∧ ((sendWarningV1 7 "p" ⟨[], []⟩).1).history.length = 1 := by
  refine ⟨?_, ?_, rfl, rfl⟩
  · simp only [shouldSendWarning, defaultThresholds, rsSafe,
      Bool.or_eq_false_iff, decide_eq_false_iff_not]
    norm_num
  · simp only [shouldSendCritical, defaultThresholds, rsSafe,
      Bool.or_eq_false_iff, decide_eq_false_iff_not]
    norm_num

/-- Claim C5 as amended: in the second alertSystem.ts document the
dispatch flag of each send function is EXACTLY the conjunction of the
configured-threshold check and the elapsed per-(type, position)
cooldown — warning and prediction use the 60 s cooldown and critical the
shorter 30 s one. -/
theorem send_alerts_gated_by_threshold_and_cooldown
    (th : Thresholds) (now : ℕ) (pid : String) (rs : RiskSnapshot)
    (p : ℚ) (st : AlertState) :
    (sendWarningV2 th now pid rs st).2
      = (shouldSendWarning th rs
          && !isOnCooldown st.cooldown ("warning-" ++ pid) now 60000)
    ∧ (sendCriticalV2 th now pid rs st).2
      = (shouldSendCritical th rs
          && !isOnCooldown st.cooldown ("critical-" ++ pid) now 30000)
    ∧ (sendPredictionV2 th now pid p st).2
      = (shouldSendPrediction th p
          && !isOnCooldown st.cooldown ("prediction-" ++ pid) now 60000) := by
  refine ⟨?_, ?_, ?_⟩
  · unfold sendWarningV2
    cases h1 : shouldSendWarning th rs <;>
      cases h2 : isOnCooldown st.cooldown ("warning-" ++ pid) now 60000 <;>
      simp [h1, h2]
  · unfold sendCriticalV2
    cases h1 : shouldSendCritical th rs <;>
      cases h2 : isOnCooldown st.cooldown ("critical-" ++ pid) now 30000 <;>
      simp [h1, h2]
  · unfold sendPredictionV2
    cases h1 : shouldSendPrediction th p <;>
      cases h2 : isOnCooldown st.cooldown ("prediction-" ++ pid) now 60000 <;>
      simp [h1, h2]

/-- While the stored window still has room, every isRateLimited check is
allowed and appends its timestamp: processing send times that all lie
within 60 s of each other (and of everything already stored) from a
store of combined size at most the limit yields no limited flag and the
concatenated store. -/
theorem rlRun_all_allowed (limit : ℕ) (l : List ℕ) :
    ∀ acc : List ℕ,
    (∀ t ∈ l, ∀ a ∈ acc, t - a < 60000) →
    (∀ x ∈ l, ∀ y ∈ l, y - x < 60000) →
    acc.length + l.length ≤ limit →
    rlRun limit acc l = (acc ++ l, List.replicate l.length false) := by
  induction l with
  | nil =>
    intro acc _ _ _
    simp [rlRun]
  | cons t rest ih =>
    intro acc hrec hpair hlen
    have hfil : acc.filter (fun a => decide (t - a < 60000)) = acc := by
      rw [List.filter_eq_self]
      intro a ha
      exact decide_eq_true (hrec t (by simp) a ha)
    have hstep : rlStep limit acc t = (acc ++ [t], false) := by
      unfold rlStep
      rw [hfil]
      rw [if_neg (by simp at hlen ⊢; omega)]
    have hrec' : ∀ s ∈ rest, ∀ a ∈ acc ++ [t], s - a < 60000 := by
      intro s hs a ha
      rcases List.mem_append.mp ha with h | h
      · exact hrec s (by simp [hs]) a h
      · have : a = t := by simpa using h
        subst this
        exact hpair a (by simp) s (by simp [hs])
    have hpair' : ∀ x ∈ rest, ∀ y ∈ rest, y - x < 60000 := by
      intro x hx y hy
      exact hpair x (by simp [hx]) y (by simp [hy])
    have hlen' : (acc ++ [t]).length + rest.length ≤ limit := by
      simp at hlen ⊢
      omega
    have hr := ih (acc ++ [t]) hrec' hpair' hlen'
    unfold rlRun
    rw [hstep]
    simp only
    rw [hr]
    simp [List.replicate_succ]

/-- Claim C7: for a sink limited to N sends per minute, the first N
alerts within one 60-second window pass the isRateLimited check and are
recorded, the (N+1)-th in the same window is reported limited (so
dispatchAlert skips that sink) without being recorded, a rate-limit-hit
event sets the rateLimitHits statistic, a send after the window has
rolled past every recorded timestamp is allowed again, and skipping one
sink leaves every other sink's rate-limit entry untouched. -/
theorem rate_limit_window
    (N : ℕ) (l : List ℕ) (tN tL : ℕ)
    (s : WStats) (m : List (String × List ℕ)) (name other : String) (now : ℕ)
    (hN : 0 < N) (hlen : l.length = N)
    (hpair : ∀ x ∈ l, ∀ y ∈ l, y - x < 60000)
    (hin : ∀ a ∈ l, tN - a < 60000)
    (hroll : ∀ a ∈ l, 60000 ≤ tL - a)
    (hother : other ≠ name) :
    (rlRun N [] l).2 = List.replicate N false
    ∧ (rlRun N [] l).1 = l
    ∧ (rlStep N l tN).2 = true
    ∧ (rlStep N l tN).1 = l
    ∧ (rlStep N l tL).2 = false
    ∧ (applyEvent s .rateLimited).rateLimitHits = 1
    ∧ lookupRate (rlMapStep N m name now).1 other = lookupRate m other := by
  have hrun := rlRun_all_allowed N l []
    (by intro t ht a ha; simp at ha) hpair (by simp [hlen])
  have hfilN : l.filter (fun a => decide (tN - a < 60000)) = l := by
    rw [List.filter_eq_self]
    intro a ha
    exact decide_eq_true (hin a ha)
  have hfilL : l.filter (fun a => decide (tL - a < 60000)) = [] := by
    rw [List.filter_eq_nil_iff]
    intro a ha
    simp only [decide_eq_true_eq]
    have h := hroll a ha
    omega
  refine ⟨by rw [hrun]; simp [hlen], by rw [hrun]; simp, ?_, ?_, ?_, rfl, ?_⟩
  · unfold rlStep
    rw [hfilN]
    rw [if_pos (by omega)]
  · unfold rlStep
    rw [hfilN]
    rw [if_pos (by omega)]
  · unfold rlStep
    rw [hfilL]
    rw [if_neg (by simp; omega)]
  · unfold rlMapStep
    by_cases hlim : (rlStep N ((lookupRate m name).getD []) now).2
    · simp [hlim]
    · simp only [hlim, Bool.false_eq_true, if_false]
      unfold lookupRate
      rw [List.find?_cons_of_neg _ (by simp [Ne.symm hother])]

/-- Witness for C7: limit 2, sends at t=10 and t=20 allowed, the third
at t=30 limited and unrecorded, a send at t=70000 allowed again; the
rate-limit skip of sink "a" leaves sink "b" untouched. -/
theorem rate_limit_window_witness :
    (rlRun 2 [] [10, 20]).2 = List.replicate 2 false
    ∧ (rlRun 2 [] [10, 20]).1 = [10, 20]
    ∧ (rlStep 2 [10, 20] 30).2 = true
    ∧ (rlStep 2 [10, 20] 30).1 = [10, 20]
    ∧ (rlStep 2 [10, 20] 70000).2 = false
    ∧ (applyEvent initStats .rateLimited).rateLimitHits = 1
    ∧ lookupRate (rlMapStep 2 [] "a" 5).1 "b" = lookupRate [] "b" :=
  rate_limit_window 2 [10, 20] 30 70000 initStats [] "a" "b" 5
    (by norm_num) rfl (by decide) (by decide) (by decide) (by decide)

/-- Within one severity band the health-factor contribution of
predictLiquidation is antitone in the health factor (for a non-negative
configured weight). -/
theorem healthRisk_antitone_within_band (w a b : ℚ)
    (hw : 0 ≤ w) (hab : a ≤ b) (hband : SameBand a b) :
    healthRisk w b ≤ healthRisk w a := by
  unfold healthRisk
  rcases hband with ⟨h1, h2⟩ | ⟨h1, h2, h3, h4⟩ | ⟨h1, h2, h3, h4⟩ | ⟨h1, h2⟩
  · rw [if_pos h2, if_pos h1]
    exact mul_le_mul_of_nonneg_right
      (mul_le_mul_of_nonneg_right (by linarith) (by norm_num)) hw
  · rw [if_neg (not_lt.mpr h3), if_pos h4, if_neg (not_lt.mpr h1), if_pos h2]
    exact mul_le_mul_of_nonneg_right
      (mul_le_mul_of_nonneg_right (by linarith) (by norm_num)) hw
  · rw [if_neg (by linarith), if_neg (not_lt.mpr h3), if_pos h4,
      if_neg (by linarith), if_neg (not_lt.mpr h1), if_pos h2]
    exact mul_le_mul_of_nonneg_right
      (mul_le_mul_of_nonneg_right (by linarith) (by norm_num)) hw
  · rw [if_neg (by linarith), if_neg (by linarith), if_neg (not_lt.mpr h2),
      if_neg (by linarith), if_neg (by linarith), if_neg (not_lt.mpr h1)]

/-- Claim C1 counterexample: with the default weights and a neutral
feature state held completely fixed, DECREASING the health factor from
1.05 to 1.04 strictly DECREASES the predicted liquidation probability
(0.125 down to 0.03), because the health-factor contribution drops
across the 1.05 band boundary — the probability is not monotonically
non-decreasing as the health factor decreases. -/
theorem predict_prob_not_monotone_at_band_edge :
    (26 : ℚ)/25 < 21/20
    ∧ predictProbability neutralTerms (26/25)
        < predictProbability neutralTerms (21/20) := by
  have hother : otherRisk neutralTerms = 0 := by
    norm_num [otherRisk, volClusterRisk, distBandRisk, trendRisk, techRisk,
      bollRisk, maAlignRisk, volumeRisk, corrRisk, neutralTerms]
  have h1 : healthRisk (1/4) ((26 : ℚ)/25) = 3/100 := by
    norm_num [healthRisk]
  have h2 : healthRisk (1/4) ((21 : ℚ)/20) = 1/8 := by
    norm_num [healthRisk]
  refine ⟨by norm_num, ?_⟩
  unfold predictProbability
  rw [show neutralTerms.base = 0 from rfl,
    show neutralTerms.wHealth = 1/4 from rfl, hother, h1, h2]
  rw [min_eq_left (by norm_num), min_eq_left (by norm_num)]
  norm_num

/-- Claim C1 as amended: the predicted probability never exceeds 0.98,
and it is monotonically non-decreasing as the health factor decreases as
long as the two health factors lie in the same severity band (below
1.05, [1.05, 1.1), [1.1, 1.3), or at least 1.3); across the 1.05 and 1.1
band boundaries the monotonicity fails (see the counterexample). -/
theorem predict_prob_capped_and_monotone_within_band
    (t : PredictTerms) (hf hf' : ℚ) (hw : 0 ≤ t.wHealth)
    (hle : hf' ≤ hf) (hband : SameBand hf' hf) :
    predictProbability t hf ≤ predictProbability t hf'
    ∧ predictProbability t hf ≤ 49/50
    ∧ predictProbability t hf' ≤ 49/50 := by
  have h := healthRisk_antitone_within_band t.wHealth hf' hf hw hle hband
  exact ⟨min_le_min (by linarith) le_rfl, min_le_right _ _, min_le_right _ _⟩

/-- Witness for the amended C1 at health factors 1.04 and 1 in the
lowest band. -/
theorem predict_prob_capped_and_monotone_within_band_witness :
    predictProbability neutralTerms ((26 : ℚ)/25)
      ≤ predictProbability neutralTerms 1
    ∧ predictProbability neutralTerms ((26 : ℚ)/25) ≤ 49/50
    ∧ predictProbability neutralTerms 1 ≤ 49/50 :=
  predict_prob_capped_and_monotone_within_band neutralTerms ((26 : ℚ)/25) 1
    (by norm_num [neutralTerms]) (by norm_num)
    (Or.inl ⟨by norm_num, by norm_num⟩)

/-- Closed form of the zero-return GARCH variance: geometric decay of the
initial excess over the fixed point ω/(1−β) = 1/15000, with excess
1/1000 − 1/15000 = 7/7500. -/
theorem garchVarZero_closed (n : ℕ) :
    garchVarZero n = 1/15000 + (17/20 : ℚ)^n * (7/7500) := by
  induction n with
  | zero =>
    norm_num [garchVarZero, garchInitVariance]
  | succ n ih =>
    show garchUpdate 0 (garchVarZero n) = _
    rw [ih]
    unfold garchUpdate garchOmega garchAlpha garchBeta
    rw [pow_succ]
    ring

/-- Bernoulli bound: the decay factor satisfies (17/20)^n ≤ 17/(3n). -/
theorem garch_beta_pow_le (n : ℕ) (hn : 1 ≤ n) :
    (17/20 : ℚ)^n ≤ 17/(3*n) := by
  have hnpos : (0:ℚ) < n := by exact_mod_cast hn
  have h1 : (1 : ℚ) + n * (3/17) ≤ (20/17)^n := by
    have hb : ((1 : ℚ) + 3/17) = 20/17 := by norm_num
    rw [← hb]
    exact one_add_mul_le_pow (by norm_num) n
  have h2 : (3 * (n:ℚ) / 17) ≤ (20/17)^n := by
    have he : (3 * (n:ℚ) / 17) = n * (3/17) := by ring
    rw [he]
    linarith
  have hkey : (17/20 : ℚ)^n * (20/17)^n = 1 := by
    rw [← mul_pow]
    norm_num
  have h3 : (17/20:ℚ)^n * (3*(n:ℚ)/17) ≤ 1 := by
    calc (17/20:ℚ)^n * (3*(n:ℚ)/17)
        ≤ (17/20:ℚ)^n * (20/17)^n :=
          mul_le_mul_of_nonneg_left h2 (by positivity)
      _ = 1 := hkey
  rw [le_div_iff₀ (by positivity : (0:ℚ) < 3*n)]
  have he2 : (17/20:ℚ)^n * (3*(n:ℚ)) = 17 * ((17/20:ℚ)^n * (3*(n:ℚ)/17)) := by
    ring
  rw [he2]
  linarith

/-- Claim C2 counterexample: the spec names ω/(1−α−β) = 1/5000 as the
limit of the zero-return GARCH variance, but the sequence does not
converge to it: the variance decays monotonically below 1/10000 (from
step 25 on), staying at distance at least 1/10000 from 1/5000 forever.
(Reported volatility is √(variance × periods-per-year), so the variance
sequence converging to L is equivalent to the reported volatility
converging to √(L × periods-per-year).) -/
theorem garch_zero_returns_not_long_run_limit :
    garchLongRunVariance = 1/5000
    ∧ ¬ SeqTendsTo garchVarZero garchLongRunVariance := by
  have hlim : garchLongRunVariance = 1/5000 := by
    norm_num [garchLongRunVariance, garchOmega, garchAlpha, garchBeta]
  refine ⟨hlim, ?_⟩
  rw [hlim]
  intro hconv
  obtain ⟨N, hN⟩ := hconv (1/10000) (by norm_num)
  have h25 : garchVarZero 25 < 1/10000 := by
    rw [garchVarZero_closed]
    norm_num
  have hmono : garchVarZero (max N 25) ≤ garchVarZero 25 := by
    rw [garchVarZero_closed, garchVarZero_closed]
    have hp : (17/20:ℚ)^(max N 25) ≤ (17/20:ℚ)^25 :=
      pow_le_pow_of_le_one (by norm_num) (by norm_num) (le_max_right N 25)
    have := mul_le_mul_of_nonneg_right hp (by norm_num : (0:ℚ) ≤ 7/7500)
    linarith
  have hlb : 1/15000 ≤ garchVarZero (max N 25) := by
    rw [garchVarZero_closed]
    have : (0:ℚ) ≤ (17/20:ℚ)^(max N 25) * (7/7500) := by positivity
    linarith
  have habs := hN (max N 25) (le_max_left N 25)
  rw [abs_of_neg (by linarith : garchVarZero (max N 25) - 1/5000 < 0)] at habs
  linarith

/-- Claim C2 as amended: fed the constant zero-return series, the GARCH
conditional variance converges to the fixed point ω/(1−β) = 1/15000 of
the recursion v ← ω + β·v (the α term vanishes with zero returns), which
differs from the spec's long-run variance ω/(1−α−β), and the variance
never drops below 1/15000 — in particular it does not tend to zero. The
reported volatility therefore converges to
√(ω/(1−β) × periods-per-year), not to zero. -/
theorem garch_zero_returns_tends_to_fixed_point :
    garchZeroFixedPoint = 1/15000
    ∧ garchZeroFixedPoint ≠ garchLongRunVariance
    ∧ (∀ n, 1/15000 ≤ garchVarZero n)
    ∧ SeqTendsTo garchVarZero garchZeroFixedPoint := by
  have hfp : garchZeroFixedPoint = 1/15000 := by
    norm_num [garchZeroFixedPoint, garchOmega, garchBeta]
  refine ⟨hfp, ?_, ?_, ?_⟩
  · rw [hfp]
    norm_num [garchLongRunVariance, garchOmega, garchAlpha, garchBeta]
  · intro n
    rw [garchVarZero_closed]
    have : (0:ℚ) ≤ (17/20:ℚ)^n * (7/7500) := by positivity
    linarith
  · rw [hfp]
    intro ε hε
    refine ⟨Nat.floor (119/(22500*ε)) + 1, ?_⟩
    intro n hn
    have hn1 : 1 ≤ n := le_trans (Nat.succ_le_succ (Nat.zero_le _)) hn
    have hnpos : (0:ℚ) < n := by exact_mod_cast hn1
    have hq : (119/(22500*ε) : ℚ) < n := by
      have h1 : (119/(22500*ε) : ℚ) < Nat.floor (119/(22500*ε)) + 1 :=
        Nat.lt_floor_add_one _
      have h2 : ((Nat.floor (119/(22500*ε)) + 1 : ℕ) : ℚ) ≤ n := by
        exact_mod_cast hn
      push_cast at h2
      linarith
    have hb := garch_beta_pow_le n hn1
    have h3 : (17/20:ℚ)^n * (7/7500) ≤ 17/(3*(n:ℚ)) * (7/7500) :=
      mul_le_mul_of_nonneg_right hb (by norm_num)
    have h4 : (17/(3*(n:ℚ))) * (7/7500) = 119/(22500*(n:ℚ)) := by
      rw [div_mul_div_comm]
      rw [div_eq_div_iff (by positivity) (by positivity)]
      ring
    have key : 119/(22500*(n:ℚ)) < ε := by
      rw [div_lt_iff₀ (by positivity)]
      rw [div_lt_iff₀ (by positivity)] at hq
      nlinarith [hq]
    rw [garchVarZero_closed]
    have he : (1:ℚ)/15000 + (17/20:ℚ)^n * (7/7500) - 1/15000
        = (17/20:ℚ)^n * (7/7500) := by ring
    rw [he, abs_of_nonneg (by positivity)]
    calc (17/20:ℚ)^n * (7/7500)
        ≤ 17/(3*(n:ℚ)) * (7/7500) := h3
      _ = 119/(22500*(n:ℚ)) := h4
      _ < ε := key

end Sentinel
